import Mathlib

/-!
Verification of the grpc-web-go-client protocol engine: a shallow embedding
of the framing codec, status resolution, the WebSocket stream transport and
the four stream state machines, with theorems settling the specification
claims against the code.

Bytes are modelled as `Nat` (values < 256 where relevant), Go byte slices as
`List Nat`, Go errors as an explicit inductive, and panics as `Option`
results (`none` = panic).  The pluggable codec (`Marshal`/`Unmarshal`) is an
external collaborator; stream operations therefore work on already-marshalled
payload bytes.
-/

namespace GrpcWeb

/-- gRPC status: code plus message (`google.golang.org/grpc/status`). -/
structure Status where
  code : Nat
  message : String
deriving DecidableEq, Repr

def codeOK : Nat := 0
def codeUnknown : Nat := 2
def codeUnavailable : Nat := 14

/-- `status.Status.Err()`: `nil` for `OK`, otherwise an error carrying the status. -/
def Status.err (s : Status) : Option Status :=
  if s.code = 0 then none else some s

/-- Go error values as they appear in this package: sentinel errors, status
errors, ad-hoc error strings and `errors.Wrap`/`fmt.Errorf("%w")` wrapping. -/
inductive GoError where
  | eof
  | unexpectedEOF
  | statusErr (s : Status)
  | insecureWithTLS
  | str (m : String)
  | wrap (m : String) (e : GoError)
deriving DecidableEq, Repr

/-- `errors.Is`: unwraps `wrap` layers looking for the target sentinel. -/
def goErrorIs (e target : GoError) : Bool :=
  if e = target then true
  else
    match e with
    | .wrap _ inner => goErrorIs inner target
    | _ => false

/-- `metadata.MD`: multi-map from lower-cased keys to value lists. -/
def MD := List (String × List String)
deriving DecidableEq, Repr

def lowerStr (s : String) : String :=
  String.mk (s.data.map Char.toLower)

/-- `metadata.MD.Get`: lower-cases the key and returns its values (empty if absent). -/
def mdGet (md : MD) (k : String) : List String :=
  mdGetAux md (lowerStr k)
where
  mdGetAux : MD → String → List String
    | [], _ => []
    | (k', vs) :: rest, key => if k' = key then vs else mdGetAux rest key

/-- `metadata.MD.Append` of a single value: lower-cases the key and appends. -/
def mdAppend (md : MD) (k v : String) : MD :=
  mdAppendAux md (lowerStr k) v
where
  mdAppendAux : MD → String → String → MD
    | [], key, v => [(key, [v])]
    | (k', vs) :: rest, key, v =>
      if k' = key then (k', vs ++ [v]) :: rest else (k', vs) :: mdAppendAux rest key v

/-- `http.Header.Set`: replace all values of the key with the single value. -/
def mdSet (md : MD) (k v : String) : MD :=
  mdSetAux md (lowerStr k) v
where
  mdSetAux : MD → String → String → MD
    | [], key, v => [(key, [v])]
    | (k', vs) :: rest, key, v =>
      if k' = key then (k', [v]) :: rest else (k', vs) :: mdSetAux rest key v

/-- `metadata.MD.Len()`: number of keys. -/
def mdLen (md : MD) : Nat := md.length

/-- Digit accumulation for the `strconv` parsers: fails on any non-digit. -/
def digitsValAux : List Char → Nat → Option Nat
  | [], acc => some acc
  | c :: cs, acc =>
    if c.isDigit then digitsValAux cs (10 * acc + (c.toNat - 48)) else none

/-- Parses a non-empty all-digit string into a `Nat`. -/
def digitsVal : List Char → Option Nat
  | [] => none
  | cs => digitsValAux cs 0

/-- `strconv.Atoi`: optional sign, decimal digits, 64-bit signed range. -/
def goAtoi (s : String) : Option Int :=
  match s.data with
  | '-' :: cs =>
    (digitsVal cs).bind fun n =>
      if (n : Int) ≤ 2 ^ 63 then some (-(n : Int)) else none
  | '+' :: cs =>
    (digitsVal cs).bind fun n =>
      if (n : Int) ≤ 2 ^ 63 - 1 then some (n : Int) else none
  | cs =>
    (digitsVal cs).bind fun n =>
      if (n : Int) ≤ 2 ^ 63 - 1 then some (n : Int) else none

/-- `strconv.ParseUint(s, 10, 32)`: unsigned decimal digits, 32-bit range. -/
def parseUint32 (s : String) : Option Nat :=
  (digitsVal s.data).bind fun n => if n < 2 ^ 32 then some n else none

/-- `codes.Code(i)`: conversion of a Go `int` to the `uint32`-based code type. -/
def codeOfInt (i : Int) : Nat :=
  (i % (2 ^ 32 : Int)).toNat

/-- statusFromHeader (stream.go): derives a status from header metadata in the
trailers-only path.  Returns `none` on the runtime panic: when `grpc-status`
parses, the code evaluates `msgs[0]` even if `grpc-message` is absent. -/
def statusFromHeader (h : MD) : Option Status :=
  let msgs := mdGet h "grpc-message"
  let codeStr := mdGet h "grpc-status"
  match codeStr with
  | [] => some ⟨codeUnknown, "response closed without grpc-status (headers only)"⟩
  | c :: _ =>
    match goAtoi c with
    | none => some ⟨codeUnknown, "strconv.Atoi: parsing \"" ++ c ++ "\": invalid syntax"⟩
    | some i =>
      match msgs with
      | [] => none
      | m :: _ => some ⟨codeOfInt i, m⟩

/-- checkStatus (grpcweb.go): evaluates `grpc-status`/`grpc-message` from the
response headers of a unary call; the code variable keeps its zero value `OK`
when `grpc-status` is absent. -/
def checkStatus (md : MD) : Status :=
  let gs := mdGet md "grpc-status"
  let gm := mdGet md "grpc-message"
  match gs with
  | [] => ⟨codeOK, gm.headD ""⟩
  | g :: _ =>
    match parseUint32 g with
    | none => ⟨codeUnknown, "unknown status code " ++ g⟩
    | some c => ⟨c, gm.headD ""⟩

/-- Big-endian `uint32` from four bytes (`binary.BigEndian.Uint32`). -/
def beU32 (b1 b2 b3 b4 : Nat) : Nat :=
  ((b1 * 256 + b2) * 256 + b3) * 256 + b4

/-- Four big-endian bytes of `n` (`binary.BigEndian.PutUint32`). -/
def beBytes4 (n : Nat) : List Nat :=
  [n / 2 ^ 24 % 256, n / 2 ^ 16 % 256, n / 2 ^ 8 % 256, n % 256]

/-- header (grpcweb.go): the 5-byte frame prefix `[0][uint32(bodyLen) BE]`. -/
def header (bodyLen : Nat) : List Nat :=
  0 :: beBytes4 (bodyLen % 2 ^ 32)

/-- encodeRequestBody (grpcweb.go), applied to the already-marshalled payload
bytes (the codec is an external collaborator): `header(len) ++ payload`. -/
def encodeRequestBody (body : List Nat) : List Nat :=
  header body.length ++ body

/-! ### Header-block text parsing

Used by the WebSocket transport (transport.go, `Receive`'s scanner loop) and,
in the same line shape, by the trailer parser modelled from the spec. -/

/-- Splits a character list into lines at `'\n'`. -/
def splitLines : List Char → List (List Char)
  | [] => [[]]
  | c :: cs =>
    if c = '\n' then [] :: splitLines cs
    else
      match splitLines cs with
      | [] => [[c]]
      | l :: ls => (c :: l) :: ls

/-- Drops one trailing `'\r'` (the scanner's line ending handling). -/
def dropTrailingCR (l : List Char) : List Char :=
  match l.reverse with
  | '\r' :: rest => rest.reverse
  | _ => l

/-- Splits a line at the first occurrence of `": "`
(`strings.Index(t, ": ")`); `none` when the separator is absent. -/
def splitColonSpace : List Char → Option (List Char × List Char)
  | [] => none
  | ':' :: ' ' :: rest => some ([], rest)
  | c :: cs => (splitColonSpace cs).map (fun kv => (c :: kv.1, kv.2))

/-- Parses a `key: value` header-block byte sequence into metadata, skipping
lines without a `": "` separator and lower-casing keys (transport.go scanner
loop; the spec's `DecodeTrailer` prescribes the same shape). -/
def parseHeaderLinesC (b : List Nat) : MD :=
  (splitLines (b.map Char.ofNat)).foldl
    (fun md line =>
      match splitColonSpace (dropTrailingCR line) with
      | none => md
      | some kv => mdAppend md (String.mk kv.1) (String.mk kv.2))
    []

/-! ### Parser package models

The `grpcweb/parser` package itself is not among the sources; only its
callers are.  Its three functions are modelled from the spec (§4.1). -/

/-- Modelled from the spec: the parser's frame-header type is missing from
the sources; per §4.1 it carries the flag byte and the decoded length. -/
structure ResponseHeader where
  flag : Nat
  contentLength : Nat
deriving DecidableEq, Repr

/-- Modelled from the spec: bit 0x80 clear means a data (message) frame. -/
def ResponseHeader.isMessageHeader (h : ResponseHeader) : Bool :=
  h.flag &&& 128 == 0

/-- Modelled from the spec: bit 0x80 set means a trailer frame. -/
def ResponseHeader.isTrailerHeader (h : ResponseHeader) : Bool :=
  h.flag &&& 128 != 0

/-- Modelled from the spec: `parser.ParseResponseHeader` is missing from the
sources; per §4.1 `DecodeFrameHeader` reads exactly 5 bytes, bit 0x80 of the
flag byte marking a trailer frame, the remaining 4 bytes a big-endian length;
fewer than 5 bytes available is a malformed frame. -/
def ParseResponseHeader (b : List Nat) : Option (ResponseHeader × List Nat) :=
  match b with
  | f :: x1 :: x2 :: x3 :: x4 :: rest => some (⟨f, beU32 x1 x2 x3 x4⟩, rest)
  | _ => none

/-- Modelled from the spec: `parser.ParseLengthPrefixedMessage` is missing
from the sources; per §4.1 `DecodeMessage` reads exactly `length` bytes and
fails on truncation.  Also returns the remaining stream. -/
def ParseLengthPrefixedMessage (b : List Nat) (length : Nat) : Option (List Nat × List Nat) :=
  if length ≤ b.length then some (b.take length, b.drop length) else none

/-- Modelled from the spec: the status half of `parser.ParseStatusAndTrailer`
is missing from the sources; per §3/§4.1 the trailer metadata carries a
mandatory `grpc-status` (absence is `Unknown`) and an optional
`grpc-message` (empty when absent). -/
def resolveTrailerStatus (md : MD) : Status :=
  match mdGet md "grpc-status" with
  | [] => ⟨codeUnknown, "missing grpc-status in trailer"⟩
  | c :: _ =>
    match goAtoi c with
    | none => ⟨codeUnknown, "malformed grpc-status in trailer"⟩
    | some i => ⟨codeOfInt i, (mdGet md "grpc-message").headD ""⟩

/-- Modelled from the spec: `parser.ParseStatusAndTrailer` is missing from
the sources; per §4.1 `DecodeTrailer` reads `length` bytes of `key: value`
lines (unparseable lines skipped) and the status is resolved from the
resulting metadata. -/
def ParseStatusAndTrailer (b : List Nat) (length : Nat) : Option (Status × MD) :=
  if length ≤ b.length then
    let md := parseHeaderLinesC (b.take length)
    some (resolveTrailerStatus md, md)
  else none

/-! ### Server-streaming call (stream.go, `serverStream`) -/

/-- Outcome of a `RecvMsg` call: a normal return (message bytes written into
the caller's value, plus the returned error, `none` = nil) or a panic. -/
inductive RecvOut where
  | ret (msg : Option (List Nat)) (err : Option GoError)
  | panicked (m : String)
deriving DecidableEq, Repr

/-- serverStream.RecvMsg's flag dispatch: `flag == 0 || flag == 1` selects the
message branch; every other flag value falls through to trailer parsing. -/
def serverFlagIsMessage (flag : Nat) : Bool :=
  flag == 0 || flag == 1

/-- serverStream state: the cached response body stream (`none` before Send),
the closed flag and the header/trailer metadata. -/
structure ServerStreamState where
  resStream : Option (List Nat)
  closed : Bool
  headerSS : MD
  trailerSS : MD
deriving DecidableEq, Repr

/-- serverStream.Trailer: panics (`none`) unless the stream is closed. -/
def serverTrailer (st : ServerStreamState) : Option MD :=
  if st.closed then some st.trailerSS else none

/-- serverStream.RecvMsg: reads a 5-byte frame header from the cached body,
returns `EOF` on empty stream or zero length, decodes a message for flag 0/1,
and otherwise parses the frame as status + trailer, closing the stream. -/
def serverRecvMsg (st : ServerStreamState) : RecvOut × ServerStreamState :=
  match st.resStream with
  | none => (.ret none (some (.str "Receive must be call after calling Send")), st)
  | some body =>
    match body with
    | [] => (.ret none (some .eof), st)
    | b0 :: b1 :: b2 :: b3 :: b4 :: rest =>
      let flag := b0
      let length := beU32 b1 b2 b3 b4
      if length = 0 then (.ret none (some .eof), st)
      else if serverFlagIsMessage flag then
        match ParseLengthPrefixedMessage rest length with
        | none => (.ret none (some (.str "truncated message")), st)
        | some msgRest =>
          (.ret (some msgRest.1) none, { st with resStream := some msgRest.2 })
      else
        match ParseStatusAndTrailer rest length with
        | none => (.ret none (some (.wrap "failed to parse trailer" (.str "truncated trailer"))), st)
        | some statTr =>
          let st' := { st with
            closed := true
            trailerSS := statTr.2
            resStream := some (rest.drop length) }
          if statTr.1.code ≠ 0 then (.ret none (some (.statusErr statTr.1)), st')
          else (.ret none (some .eof), st')
    | _ => (.ret none (some .unexpectedEOF), st)

/-! ### WebSocket stream transport (transport.go, `webSocketTransport`) -/

/-- One incoming WebSocket event: a binary message, or a connection close
with a normal or abnormal close code. -/
inductive WSEvent where
  | msg (b : List Nat)
  | closeNormal
  | closeAbnormal
deriving DecidableEq, Repr

/-- One message written to the socket: the serialized request-header block,
a binary message, or the WebSocket close message. -/
inductive WSMsg where
  | headerBlock (h : MD)
  | bin (b : List Nat)
  | close
deriving DecidableEq, Repr

/-- webSocketTransport state: the `closed` flag (set only by `Close`), the
two `sync.Once` guards, the request/response header caches, the queue of
incoming socket events and the trace of written messages. -/
structure WSState where
  closed : Bool
  headerWritten : Bool
  respRead : Bool
  reqHeader : Option MD
  headerWS : Option MD
  incoming : List WSEvent
  written : List WSMsg
deriving DecidableEq, Repr

/-- webSocketTransport.SetRequestHeader. -/
def wsSetRequestHeader (ws : WSState) (h : MD) : WSState :=
  { ws with reqHeader := some h }

/-- webSocketTransport.Send: fails with `EOF` when the transport is closed;
writes the request-header block once (with `content-type` and `x-grpc-web`
forced), then one binary message `0x00 ++ body`.  Socket writes themselves
are modelled as succeeding. -/
def wsSend (ws : WSState) (body : List Nat) : Except GoError WSState :=
  if ws.closed then .error .eof
  else
    let ws :=
      if ws.headerWritten then ws
      else
        let h := ws.reqHeader.getD []
        let h := mdSet (mdSet h "content-type" "application/grpc-web+proto") "x-grpc-web" "1"
        { ws with headerWritten := true, written := ws.written ++ [.headerBlock h] }
    .ok { ws with written := ws.written ++ [.bin (0 :: body)] }

/-- webSocketTransport.CloseSend: writes the single sentinel byte `0x01`;
it does not touch the `closed` flag. -/
def wsCloseSend (ws : WSState) : Except GoError WSState :=
  .ok { ws with written := ws.written ++ [.bin [1]] }

/-- webSocketTransport.Close: writes the close message and sets `closed`. -/
def wsClose (ws : WSState) : WSState :=
  { ws with closed := true, written := ws.written ++ [.close] }

/-- The `resOnce` body of webSocketTransport.Receive: discard one message,
parse the next as the response-header block and cache it.  The guard is
consumed even when the preamble reads fail (any error set inside the once is
overwritten by the following `ReadMessage` call in the code). -/
def wsConsumePreamble (ws : WSState) : WSState :=
  if ws.respRead then ws
  else
    match ws.incoming with
    | .msg _ :: .msg h :: rest =>
      { ws with respRead := true, headerWS := some (parseHeaderLinesC h), incoming := rest }
    | _ => { ws with respRead := true }

/-- webSocketTransport.Receive: `EOF` when closed; after the one-time header
preamble, reads one message plus the following message and returns their
concatenation; a close event at the `ReadMessage` step maps a normal close to
`EOF` and an abnormal close to `UnexpectedEOF`. -/
def wsReceive (ws0 : WSState) : Except GoError (List Nat) × WSState :=
  if ws0.closed then (.error .eof, ws0)
  else
    let ws := wsConsumePreamble ws0
    match ws.incoming with
    | .closeNormal :: rest => (.error .eof, { ws with incoming := rest })
    | .closeAbnormal :: rest => (.error .unexpectedEOF, { ws with incoming := rest })
    | [] => (.error (.wrap "failed to read response body" (.str "connection gone")), ws)
    | .msg b :: rest =>
      match rest with
      | .msg b2 :: rest2 => (.ok (b ++ b2), { ws with incoming := rest2 })
      | _ => (.error (.str "failed to get the next reader"), { ws with incoming := rest })

/-! ### Client-streaming call (stream.go, `clientStream`) -/

/-- clientStream state: the WebSocket transport plus the `trailersOnly` and
`closed` flags and the header/trailer caches (`none` = nil metadata). -/
structure ClientStreamState where
  ws : WSState
  trailersOnly : Bool
  closed : Bool
  headerMD : Option MD
  trailerMD : Option MD
deriving DecidableEq, Repr

/-- clientStream.Header: `(nil, nil)` once `trailersOnly` is set; otherwise
the cached header, or the transport's header block fetched and cached. -/
def clientHeaderFn (st : ClientStreamState) : (Option MD × Option GoError) × ClientStreamState :=
  if st.trailersOnly then ((none, none), st)
  else
    match st.headerMD with
    | some h => ((some h, none), st)
    | none =>
      let md := st.ws.headerWS.getD []
      ((some md, none), { st with headerMD := some md })

/-- clientStream.Trailer: panics (`none`) unless `closed` is set (which
`CloseSend` sets); otherwise returns the cached trailer, nil included. -/
def clientTrailer (st : ClientStreamState) : Option (Option MD) :=
  if st.closed then some st.trailerMD else none

/-- clientStream.CloseSend: transport CloseSend, then set `closed`. -/
def clientCloseSend (st : ClientStreamState) : Except GoError ClientStreamState :=
  match wsCloseSend st.ws with
  | .error e => .error (.wrap "failed to close the send stream" e)
  | .ok ws => .ok { st with ws := ws, closed := true }

/-- clientStream.SendMsg over already-marshalled message bytes: frames the
payload, forwards the outgoing-context metadata as the request header and
sends over the transport.  No closed-stream check occurs here. -/
def clientSendMsg (st : ClientStreamState) (outMD : MD) (reqBytes : List Nat) :
    Except GoError ClientStreamState :=
  let r := encodeRequestBody reqBytes
  let ws := wsSetRequestHeader st.ws outMD
  match wsSend ws r with
  | .error e => .error (.wrap "failed to send the request" e)
  | .ok ws' => .ok { st with ws := ws' }

/-- clientStream.isTrailerOnly: the receive error is `io.ErrUnexpectedEOF`
and no trailer has been read yet. -/
def clientIsTrailerOnly (st : ClientStreamState) (e : GoError) : Bool :=
  goErrorIs e .unexpectedEOF && mdLen (st.trailerMD.getD []) == 0

/-- The spec's terminal state for a client stream: a trailer frame has been
received or a trailers-only response has been detected. -/
def clientTerminalState (st : ClientStreamState) : Bool :=
  st.trailersOnly || st.trailerMD.isSome

/-! ### Bidirectional-streaming call (stream.go, `bidiStream`) -/

/-- bidiStream: a clientStream plus the `sentCloseSend` flag. -/
structure BidiState where
  cs : ClientStreamState
  sentCloseSend : Bool
deriving DecidableEq, Repr

/-- bidiStream.CloseSend: transport CloseSend, then set `sentCloseSend`
(not the clientStream `closed` flag). -/
def bidiCloseSend (st : BidiState) : Except GoError BidiState :=
  match wsCloseSend st.cs.ws with
  | .error e => .error (.wrap "failed to close the send stream" e)
  | .ok ws => .ok { st with cs := { st.cs with ws := ws }, sentCloseSend := true }

/-- bidiStream.isTrailerOnly: only after `CloseSend`, with the clientStream
condition on top. -/
def bidiIsTrailerOnlyErr (st : BidiState) (e : GoError) : Bool :=
  st.sentCloseSend && clientIsTrailerOnly st.cs e

/-- bidiStream.RecvMsg: returns `EOF` immediately when the stream is already
closed; otherwise receives one unit from the transport, handling the
trailers-only detection, a data frame, or a trailer frame (which closes the
stream). -/
def bidiRecvMsg (st : BidiState) : RecvOut × BidiState :=
  if st.cs.closed then (.ret none (some .eof), st)
  else
    match wsReceive st.cs.ws with
    | (.error e, ws1) =>
      let st1 : BidiState := { st with cs := { st.cs with ws := ws1 } }
      if bidiIsTrailerOnlyErr st1 e then
        let st2 : BidiState := { st1 with cs := { st1.cs with closed := true } }
        let hdrCs := clientHeaderFn st2.cs
        match hdrCs.1.2 with
        | some he =>
          (.ret none (some (.wrap "failed to get header instead of trailer" he)),
            { st2 with cs := hdrCs.2 })
        | none =>
          let hdr := hdrCs.1.1
          let cs4 := { hdrCs.2 with trailerMD := hdr, trailersOnly := true }
          match statusFromHeader (hdr.getD []) with
          | none => (.panicked "runtime error: index out of range", { st2 with cs := cs4 })
          | some s => (.ret none ((Status.err s).map GoError.statusErr), { st2 with cs := cs4 })
      else (.ret none (some (.wrap "failed to receive the response" e)), st1)
    | (.ok raw, ws1) =>
      let st1 : BidiState := { st with cs := { st.cs with ws := ws1 } }
      match ParseResponseHeader raw with
      | none => (.ret none (some (.wrap "failed to parse response header" (.str "malformed frame"))), st1)
      | some rhRest =>
        let rh := rhRest.1
        let rest := rhRest.2
        if rh.isMessageHeader then
          match ParseLengthPrefixedMessage rest rh.contentLength with
          | none => (.ret none (some (.str "truncated message")), st1)
          | some msgRest => (.ret (some msgRest.1) none, st1)
        else if rh.isTrailerHeader then
          let st2 : BidiState := { st1 with cs := { st1.cs with closed := true } }
          match ParseStatusAndTrailer rest rh.contentLength with
          | none => (.ret none (some (.wrap "failed to parse trailer" (.str "truncated trailer"))), st2)
          | some statTr =>
            let st3 : BidiState := { st2 with cs := { st2.cs with trailerMD := some statTr.2 } }
            if statTr.1.code ≠ 0 then (.ret none (some (.statusErr statTr.1)), st3)
            else (.ret none (some .eof), st3)
        else (.ret none (some (.str "unexpected header")), st1)

/-! ### Connection construction (grpcweb.go `DialContext` / `NewClient`) -/

/-- Placeholder for the external `*tls.Config`; only its presence matters. -/
structure TLSConf where
  id : Nat
deriving DecidableEq, Repr

/-- Call options as data (the exported constructors of option.go). -/
inductive CallOpt where
  | contentSubtype (s : String)
  | headerSink
  | trailerSink
deriving DecidableEq, Repr

/-- Dial options as data (the exported constructors of option.go). -/
inductive DialOption where
  | withDefaultCallOptions (opts : List CallOpt)
  | withInsecure
  | withTLSConfig (conf : Option TLSConf)
deriving DecidableEq, Repr

/-- dialOptions (option.go). -/
structure DialOptions where
  defaultCallOptions : List CallOpt
  insecure : Bool
  tlsConf : Option TLSConf
deriving DecidableEq, Repr

/-- defaultDialOptions (option.go): the zero value. -/
def defaultDialOptions : DialOptions :=
  ⟨[], false, none⟩

/-- Application of one dial option to the accumulating options value. -/
def applyDialOption (o : DialOptions) : DialOption → DialOptions
  | .withDefaultCallOptions opts => { o with defaultCallOptions := opts }
  | .withInsecure => { o with insecure := true }
  | .withTLSConfig conf => { o with tlsConf := conf }

/-- The option-application loop shared by `NewClient` and `DialContext`. -/
def applyDialOptions (opts : List DialOption) : DialOptions :=
  opts.foldl applyDialOption defaultDialOptions

/-- ClientConn. -/
structure ClientConn where
  host : String
  dialOptions : DialOptions
deriving DecidableEq, Repr

/-- NewClient (stream-variant grpcweb.go): folds the options and rejects the
insecure + TLS-config combination with `ErrInsecureWithTLS`. -/
def NewClient (host : String) (opts : List DialOption) : Except GoError ClientConn :=
  let opt := applyDialOptions opts
  if opt.insecure && opt.tlsConf.isSome then .error .insecureWithTLS
  else .ok ⟨host, opt⟩

/-- DialContext (grpcweb.go): same body as `NewClient`. -/
def DialContext (host : String) (opts : List DialOption) : Except GoError ClientConn :=
  let opt := applyDialOptions opts
  if opt.insecure && opt.tlsConf.isSome then .error .insecureWithTLS
  else .ok ⟨host, opt⟩

/-! ### Unary HTTP transport and the Invoke send phase -/

/-- Result of httpTransport.Send (transport.go): success, the repeated-send
error, or `ErrInvalidResponseCode` for any status code other than 200. -/
inductive HTTPSendResult where
  | ok
  | errSentTwice
  | errInvalidResponseCode (code : Nat)
deriving DecidableEq, Repr

/-- httpTransport.Send's status check: `res.StatusCode != http.StatusOK`
fails with `fmt.Errorf("%w: %d", ErrInvalidResponseCode, code)`. -/
def httpTransportSend (sent : Bool) (statusCode : Nat) : HTTPSendResult :=
  if sent then .errSentTwice
  else if statusCode ≠ 200 then .errInvalidResponseCode statusCode
  else .ok

/-- The send phase of ClientConn.Invoke (grpcweb.go): a transport error that
is `ErrInvalidResponseCode` becomes `status.New(codes.Unavailable,
err.Error()).Err()`; other errors are wrapped.  Returns the error produced
at this stage (`none` when the POST succeeded). -/
def invokeSendPhase (statusCode : Nat) : Option GoError :=
  match httpTransportSend false statusCode with
  | .errInvalidResponseCode c =>
    some (.statusErr ⟨codeUnavailable, "received invalid response code: " ++ toString c⟩)
  | .errSentTwice =>
    some (.wrap "failed to send the request" (.str "Send must be called only one time per one Request"))
  | .ok => none

/-- Byte list of a string's characters (for concrete wire inputs). -/
def strBytes (s : String) : List Nat :=
  s.data.map Char.toNat

/-- Whether an `Except` result is a success. -/
def exceptIsOk (e : Except GoError ClientStreamState) : Bool :=
  match e with
  | .ok _ => true
  | .error _ => false

/-! ### Theorems settling the claims -/

/-- Reassembling the four big-endian bytes of `n < 2^32` yields `n`. -/
theorem beU32_beBytes4 (n : Nat) (h : n < 2 ^ 32) :
    beU32 (n / 2 ^ 24 % 256) (n / 2 ^ 16 % 256) (n / 2 ^ 8 % 256) (n % 256) = n := by
  unfold beU32
  omega

/-- C4: for every byte payload P (of frame-representable length),
`encodeRequestBody` produces `[0][len BE-4][P]`, whose 5-byte header decodes
to a data frame of length `len(P)` (under both the parser's bit-0x80
discrimination and serverStream's flag dispatch), and reading that many
following bytes returns P unchanged. -/
theorem encode_decode_roundtrip (P : List Nat) (h : P.length < 2 ^ 32) :
    ParseResponseHeader (encodeRequestBody P) = some (⟨0, P.length⟩, P) ∧
    (ResponseHeader.mk 0 P.length).isMessageHeader = true ∧
    serverFlagIsMessage 0 = true ∧
    ParseLengthPrefixedMessage P P.length = some (P, []) := by
  refine ⟨?_, by simp [ResponseHeader.isMessageHeader], by decide, ?_⟩
  · have hm : P.length % 2 ^ 32 = P.length := Nat.mod_eq_of_lt h
    show ParseResponseHeader (header P.length ++ P) = some (⟨0, P.length⟩, P)
    unfold header beBytes4
    rw [hm]
    show some (ResponseHeader.mk 0 (beU32 (P.length / 2 ^ 24 % 256) (P.length / 2 ^ 16 % 256)
        (P.length / 2 ^ 8 % 256) (P.length % 256)), P) = some (ResponseHeader.mk 0 P.length, P)
    rw [beU32_beBytes4 P.length h]
  · simp [ParseLengthPrefixedMessage]

/-- Witness for C4 at the concrete payload `[10, 20, 30]`. -/
theorem encode_decode_roundtrip_witness :
    ParseResponseHeader (encodeRequestBody [10, 20, 30]) = some (⟨0, 3⟩, [10, 20, 30]) ∧
    (ResponseHeader.mk 0 3).isMessageHeader = true ∧
    serverFlagIsMessage 0 = true ∧
    ParseLengthPrefixedMessage [10, 20, 30] 3 = some ([10, 20, 30], []) :=
  encode_decode_roundtrip [10, 20, 30] (by decide)

/-- C1 counterexample: the flag byte 2 has bit 0x80 clear, yet
serverStream.RecvMsg does not classify the frame as a data frame: it parses
it as a trailer frame, capturing the trailer metadata and closing the
stream. -/
theorem serverFlag_clear_bit_not_message_cex :
    2 &&& 128 = 0 ∧ serverFlagIsMessage 2 = false ∧
    serverRecvMsg ⟨some (2 :: 0 :: 0 :: 0 :: 16 :: strBytes "grpc-status: 0\r\n"), false, [], []⟩ =
      (.ret none (some .eof), ⟨some [], true, [], [("grpc-status", ["0"])]⟩) := by
  refine ⟨by decide, by decide, by decide⟩

/-- C1 (amended): in serverStream.RecvMsg, a flag byte with bit 0x80 set is
always classified as a trailer frame, but a flag byte with bit 0x80 clear is
classified as a data frame only when it equals 0 or 1; every other value is
also treated as a trailer frame. -/
theorem serverFlag_classification (flag : Nat) :
    (flag &&& 128 ≠ 0 → serverFlagIsMessage flag = false) ∧
    (serverFlagIsMessage flag = true ↔ flag = 0 ∨ flag = 1) := by
  constructor
  · intro h
    rcases eq_or_ne flag 0 with rfl | h0
    · simp at h
    rcases eq_or_ne flag 1 with rfl | h1
    · simp at h
    simp [serverFlagIsMessage, h0, h1]
  · simp [serverFlagIsMessage]

/-- Witness for the C1 amended theorem at flag byte 130 (bit 0x80 set). -/
theorem serverFlag_classification_witness :
    serverFlagIsMessage 130 = false :=
  (serverFlag_classification 130).1 (by decide)

/-- C2 counterexample: on a fresh client stream, `SendMsg` after `CloseSend`
succeeds — no stream-closed check rejects it. -/
theorem sendMsg_after_closeSend_succeeds_cex :
    exceptIsOk ((clientCloseSend ⟨⟨false, false, false, none, none, [], []⟩,
        false, false, none, none⟩).bind
      fun s => clientSendMsg s [] [171]) = true := by
  decide

/-- C2 (amended): `SendMsg` fails with the transport's EOF error only once
the transport itself has been closed (`closed` set by `Close`); `CloseSend`
never sets that flag, so a `SendMsg` issued after `CloseSend` on a live
transport is not rejected. -/
theorem sendMsg_closed_transport_behavior (st : ClientStreamState) (md : MD) (p : List Nat) :
    (st.ws.closed = true →
      clientSendMsg st md p = .error (.wrap "failed to send the request" .eof)) ∧
    clientCloseSend st =
      .ok { st with ws := { st.ws with written := st.ws.written ++ [.bin [1]] }, closed := true } ∧
    (st.ws.closed = false → exceptIsOk (clientSendMsg st md p) = true) := by
  refine ⟨?_, rfl, ?_⟩
  · intro h
    simp [clientSendMsg, wsSetRequestHeader, wsSend, h]
  · intro h
    by_cases hw : st.ws.headerWritten <;>
      simp [clientSendMsg, wsSetRequestHeader, wsSend, h, hw, exceptIsOk]

/-- Witness for the C2 amended theorem at a closed and an open transport. -/
theorem sendMsg_closed_transport_behavior_witness :
    clientSendMsg ⟨⟨true, false, false, none, none, [], []⟩, false, false, none, none⟩ [] [7] =
      .error (.wrap "failed to send the request" .eof) ∧
    exceptIsOk (clientSendMsg ⟨⟨false, false, false, none, none, [], []⟩,
      false, false, none, none⟩ [] [7]) = true :=
  ⟨(sendMsg_closed_transport_behavior _ [] [7]).1 rfl,
    (sendMsg_closed_transport_behavior _ [] [7]).2.2 rfl⟩

/-- C3 counterexample: checkStatus on metadata with no `grpc-status` key
yields the code `OK` and a nil error — absence is treated as success at the
unary header check, not as `Unknown`. -/
theorem checkStatus_missing_status_ok_cex :
    mdGet ([] : MD) "grpc-status" = [] ∧
    checkStatus [] = ⟨codeOK, ""⟩ ∧
    Status.err (checkStatus []) = none := by
  refine ⟨rfl, rfl, rfl⟩

/-- C3 (amended): statusFromHeader (the streaming trailers-only resolver)
maps an absent `grpc-status` to code `Unknown`; but checkStatus (the unary
response-header check) leaves the code `OK` when `grpc-status` is absent. -/
theorem missing_grpc_status_resolution (md : MD) (h : mdGet md "grpc-status" = []) :
    statusFromHeader md =
      some ⟨codeUnknown, "response closed without grpc-status (headers only)"⟩ ∧
    (checkStatus md).code = codeOK := by
  constructor
  · simp [statusFromHeader, h]
  · simp [checkStatus, h]

/-- Witness for the C3 amended theorem at metadata carrying only a message. -/
theorem missing_grpc_status_resolution_witness :
    statusFromHeader [("grpc-message", ["x"])] =
      some ⟨codeUnknown, "response closed without grpc-status (headers only)"⟩ ∧
    (checkStatus [("grpc-message", ["x"])]).code = codeOK :=
  missing_grpc_status_resolution [("grpc-message", ["x"])] (by decide)

/-- C5 counterexample: after `CloseSend` (and nothing else), a client stream
is not in terminal state, yet `Trailer` returns normally (the nil trailer)
instead of panicking. -/
theorem clientTrailer_before_terminal_cex :
    clientCloseSend ⟨⟨false, false, false, none, none, [], []⟩, false, false, none, none⟩ =
      .ok ⟨⟨false, false, false, none, none, [], [.bin [1]]⟩, false, true, none, none⟩ ∧
    clientTrailer ⟨⟨false, false, false, none, none, [], [.bin [1]]⟩, false, true, none, none⟩ =
      some none ∧
    clientTerminalState ⟨⟨false, false, false, none, none, [], [.bin [1]]⟩,
      false, true, none, none⟩ = false := by
  refine ⟨rfl, rfl, rfl⟩

/-- C5 (amended): `Trailer` panics exactly while the stream's `closed` flag
is unset; for serverStream (and bidiStream) that flag tracks terminal state,
but clientStream sets it on `CloseSend`, so after `CloseSend` the call
returns the cached trailer even before terminal state. -/
theorem trailer_guard (ss : ServerStreamState) (cs : ClientStreamState) :
    (ss.closed = false → serverTrailer ss = none) ∧
    (cs.closed = false → clientTrailer cs = none) ∧
    (cs.closed = true → clientTrailer cs = some cs.trailerMD) := by
  refine ⟨fun h => ?_, fun h => ?_, fun h => ?_⟩ <;>
    simp [serverTrailer, clientTrailer, h]

/-- Witness for the C5 amended theorem at fresh stream states. -/
theorem trailer_guard_witness :
    serverTrailer ⟨none, false, [], []⟩ = none ∧
    clientTrailer ⟨⟨false, false, false, none, none, [], []⟩, false, false, none, none⟩ = none :=
  ⟨(trailer_guard ⟨none, false, [], []⟩
      ⟨⟨false, false, false, none, none, [], []⟩, false, false, none, none⟩).1 rfl,
    (trailer_guard ⟨none, false, [], []⟩
      ⟨⟨false, false, false, none, none, [], []⟩, false, false, none, none⟩).2.1 rfl⟩

/-- C6: statusFromHeader panics (index out of range on `msgs[0]`) on a
trailers-only header block that carries a parseable `grpc-status` but no
`grpc-message`, although `grpc-message` is optional; with the message
present it returns the parsed status. -/
theorem statusFromHeader_missing_message_panics :
    statusFromHeader [("grpc-status", ["0"])] = none ∧
    statusFromHeader [("grpc-status", ["5"]), ("grpc-message", ["missing"])] =
      some ⟨5, "missing"⟩ := by
  refine ⟨by decide, by decide⟩

/-- C7: any non-2xx HTTP response status makes the unary Invoke send phase
fail with a status-bearing error whose code is `Unavailable`. -/
theorem invoke_non2xx_unavailable (c : Nat) (h : c < 200 ∨ 300 ≤ c) :
    invokeSendPhase c =
      some (.statusErr ⟨codeUnavailable, "received invalid response code: " ++ toString c⟩) := by
  have hne : c ≠ 200 := by omega
  simp [invokeSendPhase, httpTransportSend, hne]

/-- Witness for C7 at HTTP status 503. -/
theorem invoke_non2xx_unavailable_witness :
    invokeSendPhase 503 =
      some (.statusErr ⟨codeUnavailable, "received invalid response code: " ++ toString 503⟩) :=
  invoke_non2xx_unavailable 503 (Or.inr (by decide))

/-- C8: once a bidi stream is in terminal state (`closed` set on observing a
trailer frame or trailers-only response), `RecvMsg` returns EOF immediately
and leaves the whole state — including the transport's event queue —
untouched: no further transport I/O happens. -/
theorem bidi_recv_after_terminal (st : BidiState) (h : st.cs.closed = true) :
    bidiRecvMsg st = (.ret none (some .eof), st) := by
  simp [bidiRecvMsg, h]

/-- Witness for C8 at a closed bidi stream whose transport still has
pending incoming events. -/
theorem bidi_recv_after_terminal_witness :
    bidiRecvMsg ⟨⟨⟨false, false, false, none, none, [.msg [128, 0, 0, 0, 0]], []⟩,
        false, true, none, none⟩, true⟩ =
      (.ret none (some .eof),
        ⟨⟨⟨false, false, false, none, none, [.msg [128, 0, 0, 0, 0]], []⟩,
          false, true, none, none⟩, true⟩) :=
  bidi_recv_after_terminal _ rfl

/-- C9: constructing a client connection with the folded options having both
`insecure` and a present TLS configuration yields `ErrInsecureWithTLS` and
no connection; any other combination yields a connection and no error —
for both `NewClient` and `DialContext`. -/
theorem newClient_insecure_tls (host : String) (opts : List DialOption) :
    ((applyDialOptions opts).insecure = true → (applyDialOptions opts).tlsConf.isSome = true →
      NewClient host opts = .error .insecureWithTLS ∧
      DialContext host opts = .error .insecureWithTLS) ∧
    (¬((applyDialOptions opts).insecure = true ∧ (applyDialOptions opts).tlsConf.isSome = true) →
      NewClient host opts = .ok ⟨host, applyDialOptions opts⟩ ∧
      DialContext host opts = .ok ⟨host, applyDialOptions opts⟩) := by
  constructor
  · intro h1 h2
    constructor <;> simp [NewClient, DialContext, h1, h2]
  · intro h
    have hb : ((applyDialOptions opts).insecure && (applyDialOptions opts).tlsConf.isSome) = false := by
      rcases Bool.eq_false_or_eq_true (applyDialOptions opts).insecure with hi | hi <;>
        rcases Bool.eq_false_or_eq_true (applyDialOptions opts).tlsConf.isSome with hs | hs <;>
          simp_all
    constructor <;> simp [NewClient, DialContext, hb]

/-- Witness for C9: the rejected combination and the accepted default. -/
theorem newClient_insecure_tls_witness :
    NewClient "example.com" [.withInsecure, .withTLSConfig (some ⟨0⟩)] =
      .error .insecureWithTLS ∧
    DialContext "example.com" [] = .ok ⟨"example.com", ⟨[], false, none⟩⟩ :=
  ⟨((newClient_insecure_tls "example.com" [.withInsecure, .withTLSConfig (some ⟨0⟩)]).1
      rfl rfl).1,
    ((newClient_insecure_tls "example.com" []).2 (by decide)).2⟩

/-- C10: once a trailers-only response has been detected on a client stream
(`trailersOnly` set), every `Header` call returns nil metadata and a nil
error, leaving the state (including the cached header block) untouched. -/
theorem header_after_trailersOnly (st : ClientStreamState) (h : st.trailersOnly = true) :
    clientHeaderFn st = ((none, none), st) := by
  simp [clientHeaderFn, h]

/-- Witness for C10 at a stream whose header cache is populated. -/
theorem header_after_trailersOnly_witness :
    clientHeaderFn ⟨⟨false, false, false, none, none, [], []⟩,
        true, false, some [("k", ["v"])], none⟩ =
      ((none, none),
        ⟨⟨false, false, false, none, none, [], []⟩, true, false, some [("k", ["v"])], none⟩) :=
  header_after_trailersOnly _ rfl

end GrpcWeb
